import Mathlib

/-
Verification of the HyperHeadset device abstraction and state-refresh engine
(`src/devices/mod.rs` and the per-model codec files) against its specification.

Modelling conventions:
* bytes are `Nat` values (every byte written by the embedded code is < 256);
  wire packets are `List Nat`;
* `std::time::Duration` is modelled by its whole number of seconds (`Nat`),
  since the code only ever constructs durations via `Duration::from_secs` and
  only reads them via `as_secs`;
* the HID transport handle is modelled by an oracle (`Wire`) giving, for the
  n-th write of a refresh operation, whether the write succeeds, and for the
  n-th read, the bytes placed into the 256-byte read buffer (`none` models a
  read error or a timeout — both collapse to "no data" in `wait_for_updates`,
  which discards read errors with `.ok()?`);
* Rust slice indexing `response[i]` can panic when `i` is out of bounds; the
  decoders are therefore embedded in `Except Unit`, where `.error ()` models
  the out-of-bounds panic and `.ok v` a normal return of `v`;
* `debug_println!` expands to nothing in release builds (it is gated on
  `debug_assertions`), so its arguments are not evaluated; the embedding
  models the release build and omits these debug-only expressions;
* `f32` equalizer arithmetic is modelled exactly over `ℚ` (the claims only
  involve values on which `f32` arithmetic is exact).
-/

/-- `ChargingStatus` from `src/devices/mod.rs`. -/
inductive ChargingStatus where
  | NotCharging
  | Charging
  | FullyCharged
  | ChargeError
deriving DecidableEq, Repr

/-- `impl From<u8> for ChargingStatus` in `src/devices/mod.rs`. -/
def ChargingStatus.from_u8 (value : Nat) : ChargingStatus :=
  if value = 0 then .NotCharging
  else if value = 1 then .Charging
  else if value = 2 then .FullyCharged
  else .ChargeError

/-- `Color` from `src/devices/mod.rs`. -/
inductive Color where
  | BlackBlack
  | BlackRed
  | UnknownColor (n : Nat)
deriving DecidableEq, Repr

/-- `impl From<u8> for Color` in `src/devices/mod.rs`. -/
def Color.from_u8 (color : Nat) : Color :=
  if color = 0 then .BlackBlack
  else if color = 2 then .BlackRed
  else .UnknownColor color

/-- `DeviceEvent` from `src/devices/mod.rs`.  Durations carried by
`AutomaticShutdownAfter` are in seconds.  The extra `NoiseGateActive` variant
appears only in `src/devices/cloud_ii_core_wireless.rs` (a codec file that is
not listed in the `pub mod` declarations of `mod.rs`); it is never produced by
any codec reachable from the connection resolver. -/
inductive DeviceEvent where
  | BatterLevel (level : Nat)
  | Muted (status : Bool)
  | MicConnected (status : Bool)
  | Charging (status : ChargingStatus)
  | AutomaticShutdownAfter (seconds : Nat)
  | PairingInfo (info : Nat)
  | ProductColor (color : Color)
  | SideToneOn (side : Bool)
  | SideToneVolume (volume : Nat)
  | VoicePrompt (enabled : Bool)
  | WirelessConnected (connected : Bool)
  | SurroundSound (status : Bool)
  | Silent (silent : Bool)
  | RequireSIRKReset (reset : Bool)
  | NoiseGateActive (active : Bool)
deriving DecidableEq, Repr

/-- `DeviceError` from `src/devices/mod.rs`.  The payloads of `HidError` and
`UnknownResponse` are irrelevant to the claims and are dropped. -/
inductive DeviceError where
  | HidError
  | NoDeviceFound
  | HeadSetOff
  | NoResponse
  | UnknownResponse
deriving DecidableEq, Repr

/-- `DeviceState` from `src/devices/mod.rs`.  The `hid_device` handle is not a
field here: transport behaviour is modelled separately by the `Wire` oracle. -/
structure DeviceState where
  product_id : Nat
  vendor_id : Nat
  device_name : Option String
  battery_level : Option Nat
  charging : Option ChargingStatus
  muted : Option Bool
  mic_connected : Option Bool
  automatic_shutdown_after : Option Nat
  pairing_info : Option Nat
  product_color : Option Color
  side_tone_on : Option Bool
  side_tone_volume : Option Nat
  surround_sound : Option Bool
  voice_prompt_on : Option Bool
  connected : Option Bool
  silent : Option Bool
  can_set_mute : Bool
  can_set_surround_sound : Bool
  can_set_side_tone : Bool
  can_set_automatic_shutdown : Bool
  can_set_side_tone_volume : Bool
  can_set_voice_prompt : Bool
  can_set_silent_mode : Bool
  can_set_equalizer : Bool
deriving DecidableEq, Repr

/-- The state built by `DeviceState::new` in `src/devices/mod.rs`: identity
fields from the resolved HID device, every feature value `None`, every
capability flag `false`. -/
def DeviceState.new (vendor_id product_id : Nat) (device_name : Option String) :
    DeviceState where
  product_id := product_id
  vendor_id := vendor_id
  device_name := device_name
  battery_level := none
  charging := none
  muted := none
  mic_connected := none
  automatic_shutdown_after := none
  pairing_info := none
  product_color := none
  side_tone_on := none
  side_tone_volume := none
  surround_sound := none
  voice_prompt_on := none
  connected := none
  silent := none
  can_set_mute := false
  can_set_surround_sound := false
  can_set_side_tone := false
  can_set_automatic_shutdown := false
  can_set_side_tone_volume := false
  can_set_voice_prompt := false
  can_set_silent_mode := false
  can_set_equalizer := false

/-- `DeviceState::update_self_with_event` from `src/devices/mod.rs`.  The
`RequireSIRKReset` arm only prints; `NoiseGateActive` is unreachable from the
compiled codecs (see `DeviceEvent`); neither changes the state. -/
def DeviceState.update_self_with_event (s : DeviceState) (event : DeviceEvent) :
    DeviceState :=
  match event with
  | .BatterLevel level => { s with battery_level := some level }
  | .Charging status => { s with charging := some status }
  | .Muted status => { s with muted := some status }
  | .MicConnected status => { s with mic_connected := some status }
  | .AutomaticShutdownAfter duration =>
      { s with automatic_shutdown_after := some duration }
  | .PairingInfo info => { s with pairing_info := some info }
  | .ProductColor color => { s with product_color := some color }
  | .SideToneOn side => { s with side_tone_on := some side }
  | .SideToneVolume volume => { s with side_tone_volume := some volume }
  | .SurroundSound status => { s with surround_sound := some status }
  | .VoicePrompt enabled => { s with voice_prompt_on := some enabled }
  | .WirelessConnected connected => { s with connected := some connected }
  | .Silent silent => { s with silent := some silent }
  | .RequireSIRKReset _ => s
  | .NoiseGateActive _ => s

/-- `DeviceState::clear_state` from `src/devices/mod.rs`. -/
def DeviceState.clear_state (s : DeviceState) : DeviceState :=
  { s with
    charging := none
    battery_level := none
    muted := none
    surround_sound := none
    mic_connected := none
    automatic_shutdown_after := none
    pairing_info := none
    product_color := none
    side_tone_on := none
    side_tone_volume := none
    voice_prompt_on := none
    connected := none
    silent := none }

/-- C7: `clear_state` sets every per-feature value field to `None` and leaves
the eight capability flags and the identity fields (`vendor_id`, `product_id`,
`device_name`) unchanged. -/
theorem clear_state_clears_values_and_preserves_flags (s : DeviceState) :
    (s.clear_state.charging = none ∧
     s.clear_state.battery_level = none ∧
     s.clear_state.muted = none ∧
     s.clear_state.surround_sound = none ∧
     s.clear_state.mic_connected = none ∧
     s.clear_state.automatic_shutdown_after = none ∧
     s.clear_state.pairing_info = none ∧
     s.clear_state.product_color = none ∧
     s.clear_state.side_tone_on = none ∧
     s.clear_state.side_tone_volume = none ∧
     s.clear_state.voice_prompt_on = none ∧
     s.clear_state.connected = none ∧
     s.clear_state.silent = none) ∧
    (s.clear_state.can_set_mute = s.can_set_mute ∧
     s.clear_state.can_set_surround_sound = s.can_set_surround_sound ∧
     s.clear_state.can_set_side_tone = s.can_set_side_tone ∧
     s.clear_state.can_set_automatic_shutdown = s.can_set_automatic_shutdown ∧
     s.clear_state.can_set_side_tone_volume = s.can_set_side_tone_volume ∧
     s.clear_state.can_set_voice_prompt = s.can_set_voice_prompt ∧
     s.clear_state.can_set_silent_mode = s.can_set_silent_mode ∧
     s.clear_state.can_set_equalizer = s.can_set_equalizer) ∧
    (s.clear_state.vendor_id = s.vendor_id ∧
     s.clear_state.product_id = s.product_id ∧
     s.clear_state.device_name = s.device_name) := by
  refine ⟨⟨rfl, rfl, rfl, rfl, rfl, rfl, rfl, rfl, rfl, rfl, rfl, rfl, rfl⟩,
    ⟨rfl, rfl, rfl, rfl, rfl, rfl, rfl, rfl⟩, rfl, rfl, rfl⟩

/-- Rust slice indexing `response[i]` on a byte slice: out of bounds is a
panic, modelled as `.error ()`. -/
def idx (r : List Nat) (i : Nat) : Except Unit Nat :=
  match r[i]? with
  | some b => .ok b
  | none => .error ()

theorem idx_ok_of_lt {r : List Nat} {i : Nat} (h : i < r.length) :
    ∃ b, idx r i = .ok b := by
  refine ⟨r[i], ?_⟩
  simp [idx, List.getElem?_eq_getElem h]

theorem idx_err_of_ge {r : List Nat} {i : Nat} (h : r.length ≤ i) :
    idx r i = .error () := by
  have hn : r[i]? = none := List.getElem?_eq_none h
  simp [idx, hn]

/-- `mute as u8` and the other `bool as u8` casts. -/
def boolByte : Bool → Nat
  | true => 1
  | false => 0

/-- The decode arms of `CloudIIIWireless::get_event_from_device_response`
(`src/devices/cloud_iii_wireless.rs`), as a pure function of the four bytes
`response[1..=4]` read by the match scrutinee; `r` is needed only for the SIRK
arm, whose scan `response.iter().take(18).skip(2)` uses the iterator API and
cannot go out of bounds. -/
def CloudIIIWireless.decode_arms (r : List Nat) (b1 b2 b3 b4 : Nat) :
    Option (List DeviceEvent) :=
  if b1 = 134 ∨ b1 = 10 then some [.Muted (b2 == 1)]
  else if b1 = 130 ∨ b1 = 11 then some [.WirelessConnected (b2 == 1)]
  else if b1 = 138 ∨ b1 = 12 then some [.Charging (ChargingStatus.from_u8 b2)]
  else if b1 = 137 ∨ b1 = 13 then
    if b2 ≠ 0 ∨ b3 ≠ 0 then some [.BatterLevel b4] else none
  else if b1 = 133 then some [.AutomaticShutdownAfter (b2 * 60)]
  else if b1 = 143 then some [.ProductColor (Color.from_u8 b2)]
  else if b1 = 135 then some [.Silent (b2 == 1)]
  else if b1 = 131 then
    some [.RequireSIRKReset (((r.take 18).drop 2).any (· != 0))]
  else none

/-- `CloudIIIWireless::get_event_from_device_response` from
`src/devices/cloud_iii_wireless.rs`.  The function reads `response[0]`, and
then `response[1]`, `response[2]`, `response[3]`, `response[4]` in the match
scrutinee, all without a length guard. -/
def CloudIIIWireless.get_event_from_device_response (r : List Nat) :
    Except Unit (Option (List DeviceEvent)) :=
  match idx r 0 with
  | .error e => .error e
  | .ok b0 =>
    if b0 ≠ 102 then .ok none
    else
      match idx r 1, idx r 2, idx r 3, idx r 4 with
      | .ok b1, .ok b2, .ok b3, .ok b4 => .ok (decode_arms r b1 b2 b3 b4)
      | _, _, _, _ => .error ()

/-- `CloudIIWireless::get_event_from_device_response` from
`src/devices/cloud_ii_wireless.rs`.  The `len < 7` guard returns `None`; the
battery arm then reads `response[7]`, which is out of bounds on a slice of
length exactly 7.  The firmware-version arm (`cmd 17`), the charge-limit arm
(`cmd 4`) and the initialization arms (`cmd 9 | 29`) only log in debug builds
and return `None`. -/
def CloudIIWireless.get_event_from_device_response (r : List Nat) :
    Except Unit (Option (List DeviceEvent)) :=
  if r.length < 7 then .ok none
  else
    match idx r 0 with
    | .error e => .error e
    | .ok b0 =>
      if b0 = 11 then
        match idx r 2 with
        | .error e => .error e
        | .ok b2 =>
          if b2 = 187 then
            match idx r 3 with
            | .error e => .error e
            | .ok b3 =>
              if b3 = 1 then
                (idx r 4).map fun b4 =>
                  some [.WirelessConnected (b4 == 1 || b4 == 4)]
              else if b3 = 2 then
                (idx r 7).map fun b7 => some [.BatterLevel b7]
              else if b3 = 3 then
                (idx r 4).map fun b4 =>
                  some [.Charging (ChargingStatus.from_u8 b4)]
              else if b3 = 8 then
                (idx r 4).map fun b4 => some [.Muted (b4 == 1)]
              else if b3 = 25 then
                (idx r 4).map fun b4 => some [.SideToneOn (b4 == 1)]
              else if b3 = 26 then
                (idx r 4).map fun b4 =>
                  some [.AutomaticShutdownAfter (b4 * 60)]
              else .ok none
          else .ok none
      else if b0 = 10 then
        (idx r 2).map fun b2 => some [.SurroundSound ((b2 &&& 2) == 2)]
      else .ok none

/-- The decode arms of `CloudIIWirelessDTS::get_event_from_device_response`
(`src/devices/cloud_ii_wireless_dts.rs`) as a pure function of the scrutinee
bytes `(response[2], response[3], response[4], response[7])`.  The voice-prompt
and product-color arms match on `response[2] = 9` resp. `14`, which is
unreachable after the `response[2] = 187` header check but is kept verbatim. -/
def CloudIIWirelessDTS.decode_arms (b2 b3 b4 b7 : Nat) :
    Option (List DeviceEvent) :=
  if b3 = 3 then some [.Charging (ChargingStatus.from_u8 b4)]
  else if b3 = 8 then some [.MicConnected (b4 == 1)]
  else if b3 = 2 then some [.BatterLevel b7]
  else if b3 = 7 then some [.AutomaticShutdownAfter (b4 * 60)]
  else if b3 = 32 ∨ b3 = 5 then some [.Muted (b4 == 1)]
  else if b3 = 9 then some [.PairingInfo b4]
  else if b3 = 6 ∨ b3 = 33 then some [.SideToneOn (b4 == 1)]
  else if b3 = 11 then some [.SideToneVolume b4]
  else if b3 = 1 then some [.WirelessConnected (b4 == 1 || b4 == 4)]
  else if b2 = 9 then some [.VoicePrompt (b3 == 1)]
  else if b2 = 14 then some [.ProductColor (Color.from_u8 b3)]
  else none

/-- `CloudIIWirelessDTS::get_event_from_device_response` from
`src/devices/cloud_ii_wireless_dts.rs`.  After the `len < 7` guard and the
header check, the match scrutinee reads `response[7]`, which is out of bounds
on a slice of length exactly 7. -/
def CloudIIWirelessDTS.get_event_from_device_response (r : List Nat) :
    Except Unit (Option (List DeviceEvent)) :=
  if r.length < 7 then .ok none
  else
    match idx r 0, idx r 1, idx r 2 with
    | .ok b0, .ok b1, .ok b2 =>
      if b0 ≠ 6 ∨ b1 ≠ 255 ∨ b2 ≠ 187 then .ok none
      else
        match idx r 3, idx r 4, idx r 7 with
        | .ok b3, .ok b4, .ok b7 => .ok (decode_arms b2 b3 b4 b7)
        | _, _, _ => .error ()
    | _, _, _ => .error ()

/-- `parse_response` from `src/devices/cloud_iii_s_wireless.rs`: reads
`response[6]` (guard), then `response[5]` (scrutinee); the auto-power-off arm
additionally reads `response[7]`.  `parse_automatic_shutdown_payload` treats
the two payload bytes as big-endian seconds. -/
def CloudIIISWireless.parse_response (r : List Nat) :
    Except Unit (Option (List DeviceEvent)) :=
  match idx r 6 with
  | .error e => .error e
  | .ok b6 =>
    if b6 = 255 then .ok none
    else
      match idx r 5 with
      | .error e => .error e
      | .ok b5 =>
        if b5 = 2 then .ok (some [.WirelessConnected (b6 == 2)])
        else if b5 = 4 then .ok (some [.Muted (b6 == 1)])
        else if b5 = 6 then .ok (some [.BatterLevel b6])
        else if b5 = 20 then .ok (some [.VoicePrompt (b6 == 1)])
        else if b5 = 22 then .ok (some [.SideToneOn (b6 == 1)])
        else if b5 = 72 then .ok (some [.Charging (ChargingStatus.from_u8 b6)])
        else if b5 = 75 then
          (idx r 7).map fun b7 =>
            some [.AutomaticShutdownAfter (b6 * 256 + b7)]
        else if b5 = 77 then .ok (some [.ProductColor (Color.from_u8 b6)])
        else .ok none

/-- `parse_notification` from `src/devices/cloud_iii_s_wireless.rs`: reads
`response[4]` (scrutinee) and, in the matching arms, `response[5]`. -/
def CloudIIISWireless.parse_notification (r : List Nat) :
    Except Unit (Option (List DeviceEvent)) :=
  match idx r 4 with
  | .error e => .error e
  | .ok b4 =>
    if b4 = 1 then (idx r 5).map fun b5 => some [.BatterLevel b5]
    else if b4 = 3 then (idx r 5).map fun b5 => some [.Muted (b5 == 1)]
    else if b4 = 5 then (idx r 5).map fun b5 => some [.SideToneOn (b5 == 1)]
    else if b4 = 10 then
      (idx r 5).map fun b5 => some [.Charging (ChargingStatus.from_u8 b5)]
    else if b4 = 12 then
      (idx r 5).map fun b5 => some [.WirelessConnected (b5 == 1)]
    else .ok none

/-- `CloudIIISWireless::get_event_from_device_response` from
`src/devices/cloud_iii_s_wireless.rs`: dispatches on `response[0]` (read with
no length guard); the consumer-control arm (`0x0f`) uses the panic-free
`response.get(1)` and only logs. -/
def CloudIIISWireless.get_event_from_device_response (r : List Nat) :
    Except Unit (Option (List DeviceEvent)) :=
  match idx r 0 with
  | .error e => .error e
  | .ok b0 =>
    if b0 = 5 then
      (idx r 1).map fun b1 => some [.Muted ((b1 &&& 2) != 0)]
    else if b0 = 15 then .ok none
    else if b0 = 12 then parse_response r
    else if b0 = 13 then parse_notification r
    else .ok none

/-- The sentinel mapping applied to a side-tone-volume payload byte by
`CloudIICoreWireless::get_event_from_device_response`
(`src/devices/cloud_ii_core_wireless.rs`):
`if status >= 251 { (status as i32 | -256i32) as u8 } else if (0..=5)
.contains(&status) { status } else { 0u8 }`.  `i32` values are modelled by
their 32-bit two's complement bit patterns (`-256i32` is `0xFFFFFF00`, i.e.
`2^32 - 256`), on which `|` is `Nat.lor`; the `as u8` cast keeps the low
eight bits of the (negative) 32-bit result. -/
def CloudIICoreWireless.side_tone_volume_map (status : Nat) : Nat :=
  if 251 ≤ status then Nat.lor status (2 ^ 32 - 256) % 256
  else if status ≤ 5 then status
  else 0

/-- The decode arms of `CloudIICoreWireless::get_event_from_device_response`
(`src/devices/cloud_ii_core_wireless.rs`) as a pure function of the scrutinee
bytes `(response[1], response[2], response[3], response[4])`. -/
def CloudIICoreWireless.decode_arms (b1 b2 b3 b4 : Nat) :
    Option (List DeviceEvent) :=
  if b1 = 138 ∨ b1 = 12 then some [.Charging (ChargingStatus.from_u8 b2)]
  else if b1 = 140 ∨ b1 = 7 then some [.MicConnected (b2 == 1)]
  else if b1 = 137 ∨ b1 = 13 then
    if b2 ≠ 0 ∨ b3 ≠ 0 then some [.BatterLevel b4] else none
  else if b1 = 133 ∨ b1 = 2 then some [.AutomaticShutdownAfter (b2 * 60)]
  else if b1 = 3 ∨ b1 = 134 ∨ b1 = 10 then some [.Muted (b2 == 1)]
  else if b1 = 129 then some [.PairingInfo b2]
  else if b1 = 132 ∨ b1 = 1 ∨ b1 = 9 then some [.SideToneOn (b2 == 1)]
  else if b1 = 136 ∨ b1 = 5 then
    some [.SideToneVolume (side_tone_volume_map b2)]
  else if b1 = 130 ∨ b1 = 11 then some [.WirelessConnected (b2 == 1)]
  else if b1 = 135 ∨ b1 = 4 then some [.Silent (b2 == 1)]
  else if b1 = 141 ∨ b1 = 15 then some [.NoiseGateActive (b2 == 1)]
  else none

/-- `CloudIICoreWireless::get_event_from_device_response` from
`src/devices/cloud_ii_core_wireless.rs`: checks `response[0] = 102`, then
reads `response[1..=4]` in the match scrutinee, all without a length guard. -/
def CloudIICoreWireless.get_event_from_device_response (r : List Nat) :
    Except Unit (Option (List DeviceEvent)) :=
  match idx r 0 with
  | .error e => .error e
  | .ok b0 =>
    if b0 ≠ 102 then .ok none
    else
      match idx r 1, idx r 2, idx r 3, idx r 4 with
      | .ok b1, .ok b2, .ok b3, .ok b4 => .ok (decode_arms b1 b2 b3 b4)
      | _, _, _, _ => .error ()

/-- The encoder/decoder surface of the `Device` trait
(`src/devices/mod.rs`), one record per headset model.  Durations are seconds;
`set_equalizer_band_packet` mirrors the trait's defaulted single-band method,
whose body returns `None` and which no compiled model overrides. -/
structure Codec where
  get_charging_packet : Option (List Nat)
  get_battery_packet : Option (List Nat)
  set_automatic_shut_down_packet : Nat → Option (List Nat)
  get_automatic_shut_down_packet : Option (List Nat)
  get_mute_packet : Option (List Nat)
  set_mute_packet : Bool → Option (List Nat)
  get_surround_sound_packet : Option (List Nat)
  set_surround_sound_packet : Bool → Option (List Nat)
  get_mic_connected_packet : Option (List Nat)
  get_pairing_info_packet : Option (List Nat)
  get_product_color_packet : Option (List Nat)
  get_side_tone_packet : Option (List Nat)
  set_side_tone_packet : Bool → Option (List Nat)
  get_side_tone_volume_packet : Option (List Nat)
  set_side_tone_volume_packet : Nat → Option (List Nat)
  get_voice_prompt_packet : Option (List Nat)
  set_voice_prompt_packet : Bool → Option (List Nat)
  get_wireless_connected_status_packet : Option (List Nat)
  get_sirk_packet : Option (List Nat)
  reset_sirk_packet : Option (List Nat)
  get_silent_mode_packet : Option (List Nat)
  set_silent_mode_packet : Bool → Option (List Nat)
  set_equalizer_band_packet : Nat → ℚ → Option (List Nat) := fun _ _ => none
  get_event_from_device_response : List Nat → Except Unit (Option (List DeviceEvent))
  allow_passive_refresh : Bool

/-- `BASE_PACKET` of `src/devices/cloud_iii_wireless.rs`: 62 bytes, byte 0 is
102. -/
def CloudIIIWireless.BASE_PACKET : List Nat := (List.replicate 62 0).set 0 102

/-- The `Device` implementation of `CloudIIIWireless`
(`src/devices/cloud_iii_wireless.rs`): every packet is `BASE_PACKET` with the
command ID at byte 1 and, for setters, the payload at byte 2. -/
def CloudIIIWireless.codec : Codec where
  get_charging_packet := some (BASE_PACKET.set 1 138)
  get_battery_packet := some (BASE_PACKET.set 1 137)
  set_automatic_shut_down_packet := fun d =>
    some ((BASE_PACKET.set 1 2).set 2 (d / 60 % 256))
  get_automatic_shut_down_packet := some (BASE_PACKET.set 1 133)
  get_mute_packet := some (BASE_PACKET.set 1 134)
  set_mute_packet := fun mute => some ((BASE_PACKET.set 1 3).set 2 (boolByte mute))
  get_surround_sound_packet := none
  set_surround_sound_packet := fun _ => none
  get_mic_connected_packet := none
  get_pairing_info_packet := none
  get_product_color_packet := some (BASE_PACKET.set 1 143)
  get_side_tone_packet := some (BASE_PACKET.set 1 132)
  set_side_tone_packet := fun b => some ((BASE_PACKET.set 1 1).set 2 (boolByte b))
  get_side_tone_volume_packet := some (BASE_PACKET.set 1 136)
  set_side_tone_volume_packet := fun v => some ((BASE_PACKET.set 1 5).set 2 v)
  get_voice_prompt_packet := none
  set_voice_prompt_packet := fun _ => none
  get_wireless_connected_status_packet := some (BASE_PACKET.set 1 130)
  get_sirk_packet := some (BASE_PACKET.set 1 131)
  reset_sirk_packet := some (BASE_PACKET.set 1 30)
  get_silent_mode_packet := some (BASE_PACKET.set 1 135)
  set_silent_mode_packet := fun b => some ((BASE_PACKET.set 1 4).set 2 (boolByte b))
  get_event_from_device_response := CloudIIIWireless.get_event_from_device_response
  allow_passive_refresh := true

/-- `CloudIIIWireless::new_from_state` (`src/devices/cloud_iii_wireless.rs`):
wraps the resolved state unchanged — in particular it does not initialize the
`connected` flag, which stays `None`. -/
def CloudIIIWireless.new_from_state (s : DeviceState) : DeviceState := s

/-- `BASE_PACKET` of `src/devices/cloud_ii_wireless.rs`: the 16-byte header on
a 62-byte packet. -/
def CloudIIWireless.BASE_PACKET : List Nat :=
  ((((((((((List.replicate 62 0).set 0 6).set 1 0).set 2 2).set 3 0).set 4
    154).set 5 0).set 6 0).set 7 104).set 8 74).set 9 142 |>.set 10 10
    |>.set 11 0 |>.set 12 0 |>.set 13 0 |>.set 14 187 |>.set 15 1

/-- The `Device` implementation of `CloudIIWireless`
(`src/devices/cloud_ii_wireless.rs`): command at byte 15, setter payload at
byte 16.  Its `new_from_state` sets `connected` to `Some(true)`. -/
def CloudIIWireless.codec : Codec where
  get_charging_packet := some (BASE_PACKET.set 15 3)
  get_battery_packet := some (BASE_PACKET.set 15 2)
  set_automatic_shut_down_packet := fun d =>
    some ((BASE_PACKET.set 15 24).set 16 (d / 60 % 256))
  get_automatic_shut_down_packet := some (BASE_PACKET.set 15 26)
  get_mute_packet := some (BASE_PACKET.set 15 1)
  set_mute_packet := fun _ => none
  get_surround_sound_packet := some
    ((((((List.replicate 62 0).set 0 6).set 2 0).set 4 255).set 7 104).set 8
      74 |>.set 9 142)
  set_surround_sound_packet := fun _ => none
  get_mic_connected_packet := none
  get_pairing_info_packet := none
  get_product_color_packet := none
  get_side_tone_packet := none
  set_side_tone_packet := fun b =>
    some ((BASE_PACKET.set 15 25).set 16 (boolByte b))
  get_side_tone_volume_packet := none
  set_side_tone_volume_packet := fun _ => none
  get_voice_prompt_packet := none
  set_voice_prompt_packet := fun _ => none
  get_wireless_connected_status_packet := none
  get_sirk_packet := none
  reset_sirk_packet := none
  get_silent_mode_packet := none
  set_silent_mode_packet := fun _ => none
  get_event_from_device_response := CloudIIWireless.get_event_from_device_response
  allow_passive_refresh := false

/-- `CloudIIWireless::new_from_state` sets `connected := Some(true)`. -/
def CloudIIWireless.new_from_state (s : DeviceState) : DeviceState :=
  { s with connected := some true }

/-- `BASE_PACKET` of `src/devices/cloud_ii_wireless_dts.rs`: 20 bytes starting
`[6, 255, 187]`. -/
def CloudIIWirelessDTS.BASE_PACKET : List Nat :=
  (((List.replicate 20 0).set 0 6).set 1 255).set 2 187

/-- The `Device` implementation of `CloudIIWirelessDTS`
(`src/devices/cloud_ii_wireless_dts.rs`): command at byte 3, setter payload at
byte 4. -/
def CloudIIWirelessDTS.codec : Codec where
  get_charging_packet := some (BASE_PACKET.set 3 3)
  get_battery_packet := some (BASE_PACKET.set 3 2)
  set_automatic_shut_down_packet := fun d =>
    some ((BASE_PACKET.set 3 34).set 4 (d / 60 % 256))
  get_automatic_shut_down_packet := some (BASE_PACKET.set 3 7)
  get_mute_packet := some (BASE_PACKET.set 3 5)
  set_mute_packet := fun mute => some ((BASE_PACKET.set 3 32).set 4 (boolByte mute))
  get_surround_sound_packet := none
  set_surround_sound_packet := fun _ => none
  get_mic_connected_packet := some (BASE_PACKET.set 3 8)
  get_pairing_info_packet := some (BASE_PACKET.set 3 9)
  get_product_color_packet := none
  get_side_tone_packet := some (BASE_PACKET.set 3 6)
  set_side_tone_packet := fun b => some ((BASE_PACKET.set 3 33).set 4 (boolByte b))
  get_side_tone_volume_packet := some (BASE_PACKET.set 3 11)
  set_side_tone_volume_packet := fun v => some ((BASE_PACKET.set 3 35).set 4 v)
  get_voice_prompt_packet := none
  set_voice_prompt_packet := fun _ => none
  get_wireless_connected_status_packet := none
  get_sirk_packet := none
  reset_sirk_packet := none
  get_silent_mode_packet := none
  set_silent_mode_packet := fun _ => none
  get_event_from_device_response := CloudIIWirelessDTS.get_event_from_device_response
  allow_passive_refresh := true

/-- `CloudIIWirelessDTS::new_from_state` sets `connected := Some(true)`. -/
def CloudIIWirelessDTS.new_from_state (s : DeviceState) : DeviceState :=
  { s with connected := some true }

/-- `BASE_PACKET` of `src/devices/cloud_iii_s_wireless.rs`: 64 bytes starting
`[0x0C, 0x02, 0x03, 0x01, 0x00]`. -/
def CloudIIISWireless.BASE_PACKET : List Nat :=
  (((((List.replicate 64 0).set 0 12).set 1 2).set 2 3).set 3 1).set 4 0

/-- `make_mic_packet` from `src/devices/cloud_iii_s_wireless.rs`: a 20-byte
packet `[0x05, cmd, 0...]` with `cmd = 0x02` for mute, `0x00` for unmute. -/
def CloudIIISWireless.make_mic_packet (mute : Bool) : List Nat :=
  ((List.replicate 20 0).set 0 5).set 1 (if mute then 2 else 0)

/-- `make_auto_shutdown_packet` from `src/devices/cloud_iii_s_wireless.rs`:
report ID `0x0c`, command `[0x02, 0x03, 0x00, 0x00, 0x4a]`, then the shutdown
time in seconds (`minutes * 60`, truncated to `u16`) big-endian at bytes 6
and 7, on a 64-byte packet. -/
def CloudIIISWireless.make_auto_shutdown_packet (minutes : Nat) : List Nat :=
  let seconds := minutes * 60 % 65536
  (((((((List.replicate 64 0).set 0 12).set 1 2).set 2 3).set 3 0).set 4
    0).set 5 74).set 6 (seconds / 256) |>.set 7 (seconds % 256)

/-- The `Device` implementation of `CloudIIISWireless`
(`src/devices/cloud_iii_s_wireless.rs`): query packets are `BASE_PACKET` with
the command at byte 5. -/
def CloudIIISWireless.codec : Codec where
  get_charging_packet := some (BASE_PACKET.set 5 72)
  get_battery_packet := some (BASE_PACKET.set 5 6)
  set_automatic_shut_down_packet := fun d => some (make_auto_shutdown_packet (d / 60))
  get_automatic_shut_down_packet := some (BASE_PACKET.set 5 75)
  get_mute_packet := some (BASE_PACKET.set 5 4)
  set_mute_packet := fun mute => some (make_mic_packet mute)
  get_surround_sound_packet := none
  set_surround_sound_packet := fun _ => none
  get_mic_connected_packet := none
  get_pairing_info_packet := none
  get_product_color_packet := some (BASE_PACKET.set 5 77)
  get_side_tone_packet := some (BASE_PACKET.set 5 22)
  set_side_tone_packet := fun _ => none
  get_side_tone_volume_packet := none
  set_side_tone_volume_packet := fun _ => none
  get_voice_prompt_packet := some (BASE_PACKET.set 5 20)
  set_voice_prompt_packet := fun _ => none
  get_wireless_connected_status_packet := some (BASE_PACKET.set 5 2)
  get_sirk_packet := none
  reset_sirk_packet := none
  get_silent_mode_packet := none
  set_silent_mode_packet := fun _ => none
  get_event_from_device_response := CloudIIISWireless.get_event_from_device_response
  allow_passive_refresh := true

/-- `CloudIIISWireless::new_from_state` wraps the state unchanged. -/
def CloudIIISWireless.new_from_state (s : DeviceState) : DeviceState := s

/-- Truncation toward zero of a rational, modelling Rust's `as i16` cast of an
`f32` already clamped into the representable range. -/
def ratTrunc (q : ℚ) : ℤ := q.num.tdiv q.den

/-- `i16::to_be_bytes` of the value's two's complement representation:
`(high byte, low byte)`. -/
def i16_be_bytes (v : ℤ) : Nat × Nat :=
  let n := (v % 65536).toNat
  (n / 256, n % 256)

/-- `CloudIIISWireless::set_equalizer_bands_packets` from
`src/devices/cloud_iii_s_wireless.rs`.  One 64-byte packet per band, report ID
`0x0c`, command `[0x02, 0x03, 0x00, 0x00, 0x5f]`, band index at byte 6 and the
big-endian `i16` of `(db * 100).clamp(-1200, 1200)` at bytes 7–8; `f32`
arithmetic is modelled exactly over `ℚ`.  Returns `None` for an empty band
list or any band index above 9.  This method is specific to this model and is
not the trait's defaulted single-band `set_equalizer_band_packet`. -/
def CloudIIISWireless.set_equalizer_bands_packets (bands : List (Nat × ℚ)) :
    Option (List (List Nat)) :=
  if bands.isEmpty || bands.any (fun b => 9 < b.1) then none
  else
    some (bands.map fun b =>
      let value_int := ratTrunc (max (-1200) (min 1200 (b.2 * 100)))
      (((((((((List.replicate 64 0).set 0 12).set 1 2).set 2 3).set 3 0).set 4
        0).set 5 95).set 6 b.1).set 7 (i16_be_bytes value_int).1).set 8
        (i16_be_bytes value_int).2)

/-- `Device::can_set_mute` (`src/devices/mod.rs`): probes
`set_mute_packet(false)`. -/
def Codec.can_set_mute (c : Codec) : Bool := (c.set_mute_packet false).isSome

/-- `Device::can_set_surround_sound`: probes `set_surround_sound_packet(false)`. -/
def Codec.can_set_surround_sound (c : Codec) : Bool :=
  (c.set_surround_sound_packet false).isSome

/-- `Device::can_set_side_tone`: probes `set_side_tone_packet(false)`. -/
def Codec.can_set_side_tone (c : Codec) : Bool :=
  (c.set_side_tone_packet false).isSome

/-- `Device::can_set_automatic_shutdown`: probes
`set_automatic_shut_down_packet(Duration::from_secs(0))`. -/
def Codec.can_set_automatic_shutdown (c : Codec) : Bool :=
  (c.set_automatic_shut_down_packet 0).isSome

/-- `Device::can_set_side_tone_volume`: probes `set_side_tone_volume_packet(0)`. -/
def Codec.can_set_side_tone_volume (c : Codec) : Bool :=
  (c.set_side_tone_volume_packet 0).isSome

/-- `Device::can_set_voice_prompt`: probes `set_voice_prompt_packet(false)`. -/
def Codec.can_set_voice_prompt (c : Codec) : Bool :=
  (c.set_voice_prompt_packet false).isSome

/-- `Device::can_set_silent_mode`: probes `set_silent_mode_packet(false)`. -/
def Codec.can_set_silent_mode (c : Codec) : Bool :=
  (c.set_silent_mode_packet false).isSome

/-- `Device::can_set_equalizer`: probes `set_equalizer_band_packet(0, 0.0)` —
the trait's defaulted single-band method. -/
def Codec.can_set_equalizer (c : Codec) : Bool :=
  (c.set_equalizer_band_packet 0 0).isSome

/-- `Device::init_capabilities` (`src/devices/mod.rs`): probes the eight
`can_set_*` helpers (pure encoder calls, no transport access — this function
takes no `Wire` argument) and stores the results in the state's capability
flags. -/
def Codec.init_capabilities (c : Codec) (s : DeviceState) : DeviceState :=
  { s with
    can_set_mute := c.can_set_mute
    can_set_surround_sound := c.can_set_surround_sound
    can_set_side_tone := c.can_set_side_tone
    can_set_automatic_shutdown := c.can_set_automatic_shutdown
    can_set_side_tone_volume := c.can_set_side_tone_volume
    can_set_voice_prompt := c.can_set_voice_prompt
    can_set_silent_mode := c.can_set_silent_mode
    can_set_equalizer := c.can_set_equalizer }

/-- Oracle for the HID transport handle: `write i` tells whether the i-th
write of the current refresh operation succeeds; `read i` gives the data read
by the i-th `read_timeout` call (`none` models a read error — discarded by
`wait_for_updates` with `.ok()?` — or a timeout with nothing read). -/
structure Wire where
  write : Nat → Bool
  read : Nat → Option (List Nat)

/-- The 256-byte read buffer of `Device::wait_for_updates`
(`src/devices/mod.rs`): `read_timeout` fills the first `data.length` bytes of
a zeroed `[0u8; RESPONSE_BUFFER_SIZE]`, and the whole buffer — not just the
filled prefix — is handed to the decoder. -/
def fill_buffer (data : List Nat) : List Nat :=
  data.take 256 ++ List.replicate (256 - data.length) 0

/-- Runs a codec's decoder, collapsing the (unreachable on 256-byte buffers,
see the decode totality lemmas) panic case to `none`. -/
def Codec.decode_or_none (c : Codec) (r : List Nat) :
    Option (List DeviceEvent) :=
  match c.get_event_from_device_response r with
  | .ok v => v
  | .error _ => none

/-- `Device::wait_for_updates` (`src/devices/mod.rs`) for the i-th read of the
current refresh operation: a read error (`.ok()?`) and an empty read
(`res == 0`) both yield `None`; otherwise the filled 256-byte buffer is
decoded. -/
def Codec.wait_for_updates (c : Codec) (w : Wire) (i : Nat) :
    Option (List DeviceEvent) :=
  match w.read i with
  | none => none
  | some data =>
      if data.length = 0 then none else c.decode_or_none (fill_buffer data)

/-- Result of an active-refresh sweep.  `result` and `state` mirror the Rust
return value and the final `DeviceState`; `written` (the packets actually
written, in order) and `states` (the device state at the end of each completed
loop iteration) are ghost observations used only to state theorems. -/
structure SweepResult where
  result : Except DeviceError Unit
  state : DeviceState
  written : List (List Nat)
  states : List DeviceState
deriving Repr

/-- The packet loop of `Device::active_refresh_state` (`src/devices/mod.rs`):
for each packet, write it (a failed write propagates `HidError` via `?`),
wait for and merge updates, record `responded` if the read decoded to `Some`,
and break once the state's `connected` flag is no longer `Some(true)`. -/
def run_sweep (c : Codec) (w : Wire) :
    List (List Nat) → Nat → DeviceState → Bool → SweepResult
  | [], _, s, responded =>
      ⟨if responded then .ok () else .error .NoResponse, s, [], []⟩
  | packet :: rest, i, s, responded =>
      if w.write i then
        let step : DeviceState × Bool :=
          match c.wait_for_updates w i with
          | some events =>
              (events.foldl DeviceState.update_self_with_event s, true)
          | none => (s, responded)
        if step.1.connected = some true then
          let r := run_sweep c w rest (i + 1) step.1 step.2
          ⟨r.result, r.state, packet :: r.written, step.1 :: r.states⟩
        else
          ⟨if step.2 then .ok () else .error .NoResponse, step.1, [packet],
            [step.1]⟩
      else ⟨.error .HidError, s, [], []⟩

/-- The fixed, ordered list of "get" packets built at the top of
`Device::active_refresh_state` (`src/devices/mod.rs`); unsupported features
(encoder returns `None`) are dropped by `.flatten()`. -/
def sweep_packets (c : Codec) : List (List Nat) :=
  [c.get_wireless_connected_status_packet, c.get_charging_packet,
   c.get_battery_packet, c.get_automatic_shut_down_packet, c.get_mute_packet,
   c.get_surround_sound_packet, c.get_mic_connected_packet,
   c.get_pairing_info_packet, c.get_product_color_packet,
   c.get_side_tone_packet, c.get_side_tone_volume_packet,
   c.get_voice_prompt_packet, c.get_sirk_packet,
   c.get_silent_mode_packet].filterMap id

/-- `Device::active_refresh_state` (`src/devices/mod.rs`).
`execute_headset_specific_functionality` returns `Ok(())` in every compiled
codec (the `CloudIIWireless` override's body is entirely commented out), so it
is a no-op here. -/
def active_refresh_state (c : Codec) (w : Wire) (s : DeviceState) :
    SweepResult :=
  run_sweep c w (sweep_packets c) 0 s false

/-- `Device::passive_refresh_state` (`src/devices/mod.rs`): if the model
allows passive refresh, one listen-and-merge (read 0); then, if a battery
packet exists, write it (a failed write propagates `HidError` via `?`) and
wait-and-merge once more (read 1). -/
def passive_refresh_state (c : Codec) (w : Wire) (s : DeviceState) :
    Except DeviceError Unit × DeviceState :=
  let s1 :=
    if c.allow_passive_refresh then
      match c.wait_for_updates w 0 with
      | some events => events.foldl DeviceState.update_self_with_event s
      | none => s
    else s
  match c.get_battery_packet with
  | some _ =>
      if w.write 0 then
        match c.wait_for_updates w 1 with
        | some events =>
            (.ok (), events.foldl DeviceState.update_self_with_event s1)
        | none => (.ok (), s1)
      else (.error .HidError, s1)
  | none => (.ok (), s1)

/-- A wire whose writes all succeed and whose reads never return data: the
model of a powered-off but enumerable headset. -/
def deadWire : Wire := ⟨fun _ => true, fun _ => none⟩

/-- A wire whose writes all fail: the model of a transport error. -/
def failWire : Wire := ⟨fun _ => false, fun _ => none⟩

/-- The state the connection resolver hands to the refresh engine for a
`CloudIIIWireless` (vendor `0x03F0 = 1008`, product `0x05B7 = 1463`):
`DeviceState::new` followed by `new_from_state`, which leaves `connected`
at `None`. -/
def cloudIIIInitialState : DeviceState :=
  CloudIIIWireless.new_from_state (DeviceState.new 1008 1463 none)

/-- Window-shift step used to relate the responded windows of consecutive
sweep iterations. -/
theorem wait_window_shift (P : Nat → Prop) (i L : Nat) (hPi : ¬ P i) :
    (∃ j, i + 1 ≤ j ∧ j < (i + 1) + L ∧ P j) ↔
      (∃ j, i ≤ j ∧ j < i + (L + 1) ∧ P j) := by
  constructor
  · rintro ⟨j, h1, h2, h3⟩
    exact ⟨j, by omega, by omega, h3⟩
  · rintro ⟨j, h1, h2, h3⟩
    rcases Nat.eq_or_lt_of_le h1 with rfl | hlt
    · exact absurd h3 hPi
    · exact ⟨j, by omega, by omega, h3⟩

/-- Sweep invariant: when every write succeeds, the sweep executes at most one
iteration per packet, returns either `Ok(())` or `NoResponse`, and returns
`Ok(())` exactly when `responded` was already set or some executed iteration's
`wait_for_updates` returned `Some`. -/
theorem run_sweep_spec (c : Codec) (w : Wire) (hw : ∀ i, w.write i = true) :
    ∀ (packets : List (List Nat)) (i : Nat) (s : DeviceState) (responded : Bool),
      (run_sweep c w packets i s responded).states.length ≤ packets.length ∧
      ((run_sweep c w packets i s responded).result = .ok () ∨
        (run_sweep c w packets i s responded).result = .error .NoResponse) ∧
      ((run_sweep c w packets i s responded).result = .ok () ↔
        (responded = true ∨ ∃ j, i ≤ j ∧
          j < i + (run_sweep c w packets i s responded).states.length ∧
          (c.wait_for_updates w j).isSome)) := by
  intro packets
  induction packets with
  | nil =>
      intro i s responded
      refine ⟨by simp [run_sweep], ?_, ?_⟩
      · cases responded <;> simp [run_sweep]
      · cases responded <;> simp [run_sweep]
        intro x h1 h2
        exact absurd h2 (by omega)
  | cons p rest ih =>
      intro i s responded
      have hwi := hw i
      cases hwait : c.wait_for_updates w i with
      | none =>
          by_cases hc : s.connected = some true
          · have h1 : run_sweep c w (p :: rest) i s responded =
                ⟨(run_sweep c w rest (i + 1) s responded).result,
                 (run_sweep c w rest (i + 1) s responded).state,
                 p :: (run_sweep c w rest (i + 1) s responded).written,
                 s :: (run_sweep c w rest (i + 1) s responded).states⟩ := by
              simp [run_sweep, hwi, hwait, hc]
            obtain ⟨ihlen, ihres, ihiff⟩ := ih (i + 1) s responded
            rw [h1]
            refine ⟨by simpa using ihlen, by simpa using ihres, ?_⟩
            simp only [List.length_cons]
            rw [ihiff]
            exact or_congr (Iff.refl _)
              (wait_window_shift (fun j => (c.wait_for_updates w j).isSome) i
                (run_sweep c w rest (i + 1) s responded).states.length
                (by simp [hwait]))
          · have h1 : run_sweep c w (p :: rest) i s responded =
                ⟨if responded then .ok () else .error .NoResponse, s, [p], [s]⟩ := by
              simp [run_sweep, hwi, hwait, hc]
            rw [h1]
            refine ⟨by simp, by cases responded <;> simp, ?_⟩
            cases responded with
            | true => simp
            | false =>
                simp only [List.length_cons, List.length_nil]
                constructor
                · intro h
                  exact absurd h (by simp)
                · rintro (h | ⟨j, hj1, hj2, hj3⟩)
                  · exact absurd h (by simp)
                  · have hji : j = i := by omega
                    subst hji
                    rw [hwait] at hj3
                    exact absurd hj3 (by simp)
      | some events =>
          by_cases hc : (events.foldl DeviceState.update_self_with_event s).connected = some true
          · have h1 : run_sweep c w (p :: rest) i s responded =
                ⟨(run_sweep c w rest (i + 1) (events.foldl DeviceState.update_self_with_event s) true).result,
                 (run_sweep c w rest (i + 1) (events.foldl DeviceState.update_self_with_event s) true).state,
                 p :: (run_sweep c w rest (i + 1) (events.foldl DeviceState.update_self_with_event s) true).written,
                 (events.foldl DeviceState.update_self_with_event s) ::
                   (run_sweep c w rest (i + 1) (events.foldl DeviceState.update_self_with_event s) true).states⟩ := by
              simp [run_sweep, hwi, hwait, hc]
            obtain ⟨ihlen, ihres, ihiff⟩ := ih (i + 1) (events.foldl DeviceState.update_self_with_event s) true
            rw [h1]
            refine ⟨by simpa using ihlen, by simpa using ihres, ?_⟩
            simp only [List.length_cons]
            rw [ihiff]
            constructor
            · intro _
              refine Or.inr ⟨i, le_refl i, by omega, ?_⟩
              rw [hwait]
              simp
            · intro _
              exact Or.inl rfl
          · have h1 : run_sweep c w (p :: rest) i s responded =
                ⟨.ok (), events.foldl DeviceState.update_self_with_event s, [p],
                  [events.foldl DeviceState.update_self_with_event s]⟩ := by
              simp [run_sweep, hwi, hwait, hc]
            rw [h1]
            refine ⟨by simp, by simp, ?_⟩
            constructor
            · intro _
              refine Or.inr ⟨i, le_refl i,
                by simp only [List.length_cons, List.length_nil]; omega, ?_⟩
              rw [hwait]
              simp
            · intro _
              rfl

/-- Sweep invariant: when every write succeeds, the packets written are
exactly the prefix of the packet list matching the executed iterations. -/
theorem run_sweep_written (c : Codec) (w : Wire) (hw : ∀ i, w.write i = true) :
    ∀ (packets : List (List Nat)) (i : Nat) (s : DeviceState) (responded : Bool),
      (run_sweep c w packets i s responded).written =
        packets.take (run_sweep c w packets i s responded).states.length := by
  intro packets
  induction packets with
  | nil => intro i s responded; simp [run_sweep]
  | cons p rest ih =>
      intro i s responded
      have hwi := hw i
      cases hwait : c.wait_for_updates w i with
      | none =>
          by_cases hc : s.connected = some true
          · simp [run_sweep, hwi, hwait, hc, ih]
          · simp [run_sweep, hwi, hwait, hc]
      | some events =>
          by_cases hc : (events.foldl DeviceState.update_self_with_event s).connected = some true
          · simp [run_sweep, hwi, hwait, hc, ih]
          · simp [run_sweep, hwi, hwait, hc]

/-- Sweep invariant: when every write succeeds, every post-iteration state
except possibly the last has `connected = Some(true)`, and if the sweep ended
before exhausting the packet list then the final state is one of the recorded
post-iteration states and its `connected` flag is not `Some(true)`. -/
theorem run_sweep_break (c : Codec) (w : Wire) (hw : ∀ i, w.write i = true) :
    ∀ (packets : List (List Nat)) (i : Nat) (s : DeviceState) (responded : Bool),
      (∀ t ∈ (run_sweep c w packets i s responded).states.dropLast,
        t.connected = some true) ∧
      ((run_sweep c w packets i s responded).states.length < packets.length →
        (run_sweep c w packets i s responded).state ∈
          (run_sweep c w packets i s responded).states ∧
        (run_sweep c w packets i s responded).state.connected ≠ some true) := by
  intro packets
  induction packets with
  | nil => intro i s responded; simp [run_sweep]
  | cons p rest ih =>
      intro i s responded
      have hwi := hw i
      cases hwait : c.wait_for_updates w i with
      | none =>
          by_cases hc : s.connected = some true
          · have h1 : run_sweep c w (p :: rest) i s responded =
                ⟨(run_sweep c w rest (i + 1) s responded).result,
                 (run_sweep c w rest (i + 1) s responded).state,
                 p :: (run_sweep c w rest (i + 1) s responded).written,
                 s :: (run_sweep c w rest (i + 1) s responded).states⟩ := by
              simp [run_sweep, hwi, hwait, hc]
            obtain ⟨ih1, ih2⟩ := ih (i + 1) s responded
            rw [h1]
            constructor
            · rcases hrs : (run_sweep c w rest (i + 1) s responded).states with _ | ⟨t0, ts⟩
              · simp [List.dropLast]
              · rw [hrs] at ih1
                intro t ht
                simp only [List.dropLast] at ht
                rcases List.mem_cons.mp ht with rfl | ht'
                · exact hc
                · exact ih1 t ht'
            · intro hlen
              simp only [List.length_cons] at hlen
              obtain ⟨hmem, hbad⟩ := ih2 (by omega)
              exact ⟨List.mem_cons_of_mem _ hmem, hbad⟩
          · have h1 : run_sweep c w (p :: rest) i s responded =
                ⟨if responded then .ok () else .error .NoResponse, s, [p], [s]⟩ := by
              simp [run_sweep, hwi, hwait, hc]
            rw [h1]
            exact ⟨by simp [List.dropLast], fun _ => ⟨by simp, hc⟩⟩
      | some events =>
          by_cases hc : (events.foldl DeviceState.update_self_with_event s).connected = some true
          · have h1 : run_sweep c w (p :: rest) i s responded =
                ⟨(run_sweep c w rest (i + 1) (events.foldl DeviceState.update_self_with_event s) true).result,
                 (run_sweep c w rest (i + 1) (events.foldl DeviceState.update_self_with_event s) true).state,
                 p :: (run_sweep c w rest (i + 1) (events.foldl DeviceState.update_self_with_event s) true).written,
                 (events.foldl DeviceState.update_self_with_event s) ::
                   (run_sweep c w rest (i + 1) (events.foldl DeviceState.update_self_with_event s) true).states⟩ := by
              simp [run_sweep, hwi, hwait, hc]
            obtain ⟨ih1, ih2⟩ := ih (i + 1) (events.foldl DeviceState.update_self_with_event s) true
            rw [h1]
            constructor
            · rcases hrs : (run_sweep c w rest (i + 1) (events.foldl DeviceState.update_self_with_event s) true).states with _ | ⟨t0, ts⟩
              · simp [List.dropLast]
              · rw [hrs] at ih1
                intro t ht
                simp only [List.dropLast] at ht
                rcases List.mem_cons.mp ht with rfl | ht'
                · exact hc
                · exact ih1 t ht'
            · intro hlen
              simp only [List.length_cons] at hlen
              obtain ⟨hmem, hbad⟩ := ih2 (by omega)
              exact ⟨List.mem_cons_of_mem _ hmem, hbad⟩
          · have h1 : run_sweep c w (p :: rest) i s responded =
                ⟨.ok (), events.foldl DeviceState.update_self_with_event s, [p],
                  [events.foldl DeviceState.update_self_with_event s]⟩ := by
              simp [run_sweep, hwi, hwait, hc]
            rw [h1]
            exact ⟨by simp [List.dropLast], fun _ => ⟨by simp, hc⟩⟩

/-- `CloudIIWireless`'s decoder performs no out-of-bounds access on inputs of
length at least 8 (the battery arm reads byte 7). -/
theorem cloudIIWireless_decode_total (r : List Nat) (h : 8 ≤ r.length) :
    ∃ v, CloudIIWireless.get_event_from_device_response r = .ok v := by
  have h7 : ¬ (r.length < 7) := by omega
  obtain ⟨b0, hb0⟩ := idx_ok_of_lt (show 0 < r.length by omega)
  obtain ⟨b2, hb2⟩ := idx_ok_of_lt (show 2 < r.length by omega)
  obtain ⟨b3, hb3⟩ := idx_ok_of_lt (show 3 < r.length by omega)
  obtain ⟨b4, hb4⟩ := idx_ok_of_lt (show 4 < r.length by omega)
  obtain ⟨b7, hb7⟩ := idx_ok_of_lt (show 7 < r.length by omega)
  simp only [CloudIIWireless.get_event_from_device_response, h7, if_false,
    hb0, hb2, hb3, hb4, hb7, Except.map]
  repeat first
  | exact ⟨_, rfl⟩
  | split

/-- `CloudIIWirelessDTS`'s decoder performs no out-of-bounds access on inputs
of length at least 8 (the match scrutinee reads byte 7). -/
theorem cloudIIWirelessDTS_decode_total (r : List Nat) (h : 8 ≤ r.length) :
    ∃ v, CloudIIWirelessDTS.get_event_from_device_response r = .ok v := by
  have h7 : ¬ (r.length < 7) := by omega
  obtain ⟨b0, hb0⟩ := idx_ok_of_lt (show 0 < r.length by omega)
  obtain ⟨b1, hb1⟩ := idx_ok_of_lt (show 1 < r.length by omega)
  obtain ⟨b2, hb2⟩ := idx_ok_of_lt (show 2 < r.length by omega)
  obtain ⟨b3, hb3⟩ := idx_ok_of_lt (show 3 < r.length by omega)
  obtain ⟨b4, hb4⟩ := idx_ok_of_lt (show 4 < r.length by omega)
  obtain ⟨b7, hb7⟩ := idx_ok_of_lt (show 7 < r.length by omega)
  simp only [CloudIIWirelessDTS.get_event_from_device_response, h7, if_false,
    hb0, hb1, hb2, hb3, hb4, hb7]
  repeat first
  | exact ⟨_, rfl⟩
  | split

/-- `parse_response` of `CloudIIISWireless` performs no out-of-bounds access
on inputs of length at least 8 (the auto-power-off arm reads byte 7). -/
theorem CloudIIISWireless.parse_response_total (r : List Nat)
    (h : 8 ≤ r.length) : ∃ v, CloudIIISWireless.parse_response r = .ok v := by
  obtain ⟨b5, hb5⟩ := idx_ok_of_lt (show 5 < r.length by omega)
  obtain ⟨b6, hb6⟩ := idx_ok_of_lt (show 6 < r.length by omega)
  obtain ⟨b7, hb7⟩ := idx_ok_of_lt (show 7 < r.length by omega)
  simp only [CloudIIISWireless.parse_response, hb5, hb6, hb7, Except.map]
  repeat first
  | exact ⟨_, rfl⟩
  | split

/-- `parse_notification` of `CloudIIISWireless` performs no out-of-bounds
access on inputs of length at least 6. -/
theorem CloudIIISWireless.parse_notification_total (r : List Nat)
    (h : 8 ≤ r.length) :
    ∃ v, CloudIIISWireless.parse_notification r = .ok v := by
  obtain ⟨b4, hb4⟩ := idx_ok_of_lt (show 4 < r.length by omega)
  obtain ⟨b5, hb5⟩ := idx_ok_of_lt (show 5 < r.length by omega)
  simp only [CloudIIISWireless.parse_notification, hb4, hb5, Except.map]
  repeat first
  | exact ⟨_, rfl⟩
  | split

/-- `CloudIIISWireless`'s decoder performs no out-of-bounds access on inputs
of length at least 8. -/
theorem cloudIIISWireless_decode_total (r : List Nat) (h : 8 ≤ r.length) :
    ∃ v, CloudIIISWireless.get_event_from_device_response r = .ok v := by
  obtain ⟨b0, hb0⟩ := idx_ok_of_lt (show 0 < r.length by omega)
  obtain ⟨b1, hb1⟩ := idx_ok_of_lt (show 1 < r.length by omega)
  simp only [CloudIIISWireless.get_event_from_device_response, hb0, hb1,
    Except.map]
  by_cases h5 : b0 = 5
  · rw [if_pos h5]
    exact ⟨_, rfl⟩
  · rw [if_neg h5]
    by_cases h15 : b0 = 15
    · rw [if_pos h15]
      exact ⟨_, rfl⟩
    · rw [if_neg h15]
      by_cases h12 : b0 = 12
      · rw [if_pos h12]
        exact CloudIIISWireless.parse_response_total r h
      · rw [if_neg h12]
        by_cases h13 : b0 = 13
        · rw [if_pos h13]
          exact CloudIIISWireless.parse_notification_total r h
        · rw [if_neg h13]
          exact ⟨_, rfl⟩

/-- `CloudIIIWireless`'s decoder performs no out-of-bounds access on inputs of
length at least 5. -/
theorem cloudIIIWireless_decode_total (r : List Nat) (h : 8 ≤ r.length) :
    ∃ v, CloudIIIWireless.get_event_from_device_response r = .ok v := by
  obtain ⟨b0, hb0⟩ := idx_ok_of_lt (show 0 < r.length by omega)
  obtain ⟨b1, hb1⟩ := idx_ok_of_lt (show 1 < r.length by omega)
  obtain ⟨b2, hb2⟩ := idx_ok_of_lt (show 2 < r.length by omega)
  obtain ⟨b3, hb3⟩ := idx_ok_of_lt (show 3 < r.length by omega)
  obtain ⟨b4, hb4⟩ := idx_ok_of_lt (show 4 < r.length by omega)
  simp only [CloudIIIWireless.get_event_from_device_response, hb0, hb1, hb2,
    hb3, hb4]
  split
  · exact ⟨_, rfl⟩
  · exact ⟨_, rfl⟩

/-- C1: for every device model, if no transport write error occurs during the
sweep, `active_refresh_state` returns the `NoResponse` error if and only if
none of the packets written in the sweep yielded a decoded response
(`wait_for_updates` returned `Some` at no executed step), and returns `Ok(())`
as soon as at least one step yielded a decoded response. -/
theorem active_refresh_state_noResponse_iff (c : Codec) (w : Wire)
    (s : DeviceState) (hw : ∀ i, w.write i = true) :
    ((active_refresh_state c w s).result = .error DeviceError.NoResponse ↔
      ∀ j < (active_refresh_state c w s).states.length,
        c.wait_for_updates w j = none) ∧
    ((∃ j < (active_refresh_state c w s).states.length,
        (c.wait_for_updates w j).isSome) →
      (active_refresh_state c w s).result = .ok ()) := by
  obtain ⟨hlen, hres, hiff⟩ := run_sweep_spec c w hw (sweep_packets c) 0 s false
  have hiff2 : (run_sweep c w (sweep_packets c) 0 s false).result = .ok () ↔
      ∃ j, j < (run_sweep c w (sweep_packets c) 0 s false).states.length ∧
        (c.wait_for_updates w j).isSome := by
    rw [hiff]
    constructor
    · rintro (h | ⟨j, _, h2, h3⟩)
      · cases h
      · exact ⟨j, by omega, h3⟩
    · rintro ⟨j, h2, h3⟩
      exact Or.inr ⟨j, by omega, by omega, h3⟩
  unfold active_refresh_state
  constructor
  · constructor
    · intro herr j hj
      by_contra hne
      have hsome : (c.wait_for_updates w j).isSome :=
        Option.ne_none_iff_isSome.mp hne
      have hok := hiff2.mpr ⟨j, hj, hsome⟩
      rw [herr] at hok
      cases hok
    · intro hall
      rcases hres with hok | herr
      · obtain ⟨j, hj, hsome⟩ := hiff2.mp hok
        have hnone := hall j hj
        rw [hnone] at hsome
        cases hsome
      · exact herr
  · rintro ⟨j, hj, hsome⟩
    exact hiff2.mpr ⟨j, hj, hsome⟩

/-- Witness for C1: a `CloudIIIWireless` on a wire whose writes succeed and
whose reads never return data. -/
theorem active_refresh_state_noResponse_iff_witness :
    (∀ i, deadWire.write i = true) ∧
    (((active_refresh_state CloudIIIWireless.codec deadWire
        cloudIIIInitialState).result = .error DeviceError.NoResponse ↔
      ∀ j < (active_refresh_state CloudIIIWireless.codec deadWire
          cloudIIIInitialState).states.length,
        CloudIIIWireless.codec.wait_for_updates deadWire j = none) ∧
    ((∃ j < (active_refresh_state CloudIIIWireless.codec deadWire
          cloudIIIInitialState).states.length,
        (CloudIIIWireless.codec.wait_for_updates deadWire j).isSome) →
      (active_refresh_state CloudIIIWireless.codec deadWire
        cloudIIIInitialState).result = .ok ())) :=
  ⟨fun _ => rfl,
   active_refresh_state_noResponse_iff CloudIIIWireless.codec deadWire
     cloudIIIInitialState (fun _ => rfl)⟩

/-- C2 counterexample: the claim says the sweep is aborted early only when the
connection flag has flipped to `Some(false)` and proceeds through the whole
packet list while it is `None`.  On a `CloudIIIWireless` (whose
`new_from_state` leaves `connected = None`) with a wire whose writes succeed
and whose reads never return data, the flag stays `None`, yet the sweep stops
after the first of its ten packets. -/
theorem active_refresh_aborts_while_connection_unknown_cx :
    (active_refresh_state CloudIIIWireless.codec deadWire
      cloudIIIInitialState).states.length = 1 ∧
    (sweep_packets CloudIIIWireless.codec).length = 10 ∧
    (active_refresh_state CloudIIIWireless.codec deadWire
      cloudIIIInitialState).state.connected = none ∧
    (active_refresh_state CloudIIIWireless.codec deadWire
      cloudIIIInitialState).result = .error DeviceError.NoResponse :=
  ⟨rfl, rfl, rfl, rfl⟩

/-- C2 (amended): during an active refresh sweep with no write errors, the
remaining packets are aborted early if and only if the device state's
connection flag is not `Some(true)` after some step — that is, it is `None`
or `Some(false)`; every post-step state except possibly the last has
`connected = Some(true)`, and an early abort leaves a final state whose flag
is not `Some(true)`. -/
theorem active_refresh_aborts_iff_connection_not_true (c : Codec) (w : Wire)
    (s : DeviceState) (hw : ∀ i, w.write i = true) :
    (∀ t ∈ (active_refresh_state c w s).states.dropLast,
      t.connected = some true) ∧
    ((active_refresh_state c w s).states.length < (sweep_packets c).length →
      (active_refresh_state c w s).state ∈ (active_refresh_state c w s).states ∧
      (active_refresh_state c w s).state.connected ≠ some true) := by
  unfold active_refresh_state
  exact run_sweep_break c w hw (sweep_packets c) 0 s false

/-- Witness for the amended C2 at a concrete device, wire and state. -/
theorem active_refresh_aborts_iff_connection_not_true_witness :
    (∀ i, deadWire.write i = true) ∧
    ((∀ t ∈ (active_refresh_state CloudIIIWireless.codec deadWire
        cloudIIIInitialState).states.dropLast, t.connected = some true) ∧
    ((active_refresh_state CloudIIIWireless.codec deadWire
        cloudIIIInitialState).states.length <
        (sweep_packets CloudIIIWireless.codec).length →
      (active_refresh_state CloudIIIWireless.codec deadWire
        cloudIIIInitialState).state ∈
        (active_refresh_state CloudIIIWireless.codec deadWire
          cloudIIIInitialState).states ∧
      (active_refresh_state CloudIIIWireless.codec deadWire
        cloudIIIInitialState).state.connected ≠ some true)) :=
  ⟨fun _ => rfl,
   active_refresh_aborts_iff_connection_not_true CloudIIIWireless.codec
     deadWire cloudIIIInitialState (fun _ => rfl)⟩

/-- C3: with no write errors, `active_refresh_state` writes exactly an
in-order prefix of the fixed, ordered, `None`-filtered packet list (one write
and one wait-and-merge per executed step, by construction of `run_sweep`);
for `CloudIIIWireless` that list is exactly the ten supported get packets in
the documented order — connection status (130), charging (138), battery
(137), automatic shutdown (133), mute (134), product color (143), side tone
(132), side tone volume (136), SIRK (131), silent mode (135) — and the
surround-sound, mic-connected, pairing and voice-prompt features, whose
encoders return `None`, are skipped. -/
theorem active_refresh_packet_order (c : Codec) (w : Wire) (s : DeviceState)
    (hw : ∀ i, w.write i = true) :
    (active_refresh_state c w s).written =
      (sweep_packets c).take (active_refresh_state c w s).states.length ∧
    sweep_packets CloudIIIWireless.codec =
      [CloudIIIWireless.BASE_PACKET.set 1 130,
       CloudIIIWireless.BASE_PACKET.set 1 138,
       CloudIIIWireless.BASE_PACKET.set 1 137,
       CloudIIIWireless.BASE_PACKET.set 1 133,
       CloudIIIWireless.BASE_PACKET.set 1 134,
       CloudIIIWireless.BASE_PACKET.set 1 143,
       CloudIIIWireless.BASE_PACKET.set 1 132,
       CloudIIIWireless.BASE_PACKET.set 1 136,
       CloudIIIWireless.BASE_PACKET.set 1 131,
       CloudIIIWireless.BASE_PACKET.set 1 135] ∧
    CloudIIIWireless.codec.get_surround_sound_packet = none ∧
    CloudIIIWireless.codec.get_mic_connected_packet = none ∧
    CloudIIIWireless.codec.get_pairing_info_packet = none ∧
    CloudIIIWireless.codec.get_voice_prompt_packet = none := by
  refine ⟨?_, rfl, rfl, rfl, rfl, rfl⟩
  unfold active_refresh_state
  exact run_sweep_written c w hw (sweep_packets c) 0 s false

/-- Witness for C3 at a concrete device, wire and state. -/
theorem active_refresh_packet_order_witness :
    (∀ i, deadWire.write i = true) ∧
    ((active_refresh_state CloudIIIWireless.codec deadWire
        cloudIIIInitialState).written =
      (sweep_packets CloudIIIWireless.codec).take
        (active_refresh_state CloudIIIWireless.codec deadWire
          cloudIIIInitialState).states.length ∧
    sweep_packets CloudIIIWireless.codec =
      [CloudIIIWireless.BASE_PACKET.set 1 130,
       CloudIIIWireless.BASE_PACKET.set 1 138,
       CloudIIIWireless.BASE_PACKET.set 1 137,
       CloudIIIWireless.BASE_PACKET.set 1 133,
       CloudIIIWireless.BASE_PACKET.set 1 134,
       CloudIIIWireless.BASE_PACKET.set 1 143,
       CloudIIIWireless.BASE_PACKET.set 1 132,
       CloudIIIWireless.BASE_PACKET.set 1 136,
       CloudIIIWireless.BASE_PACKET.set 1 131,
       CloudIIIWireless.BASE_PACKET.set 1 135] ∧
    CloudIIIWireless.codec.get_surround_sound_packet = none ∧
    CloudIIIWireless.codec.get_mic_connected_packet = none ∧
    CloudIIIWireless.codec.get_pairing_info_packet = none ∧
    CloudIIIWireless.codec.get_voice_prompt_packet = none) :=
  ⟨fun _ => rfl,
   active_refresh_packet_order CloudIIIWireless.codec deadWire
     cloudIIIInitialState (fun _ => rfl)⟩

/-- C4 counterexample: the claim says `passive_refresh_state` never returns an
error for any transport behavior, but a failed battery-packet write propagates
as a `HidError`: on a `CloudIIIWireless` (battery packet present) with a wire
whose writes fail, it returns `Err(HidError)`. -/
theorem passive_refresh_write_error_cx :
    (passive_refresh_state CloudIIIWireless.codec failWire
      cloudIIIInitialState).1 = .error DeviceError.HidError := rfl

/-- C4 (amended): `passive_refresh_state` returns `Ok(())` whenever the
battery-packet write (if the model has a battery packet) succeeds; in
particular the absence of read data — a timeout or read error on either the
passive listen or the battery reply — is never an error. -/
theorem passive_refresh_ok_when_write_succeeds (c : Codec) (w : Wire)
    (s : DeviceState) (hw : w.write 0 = true) :
    (passive_refresh_state c w s).1 = .ok () := by
  unfold passive_refresh_state
  cases hb : c.get_battery_packet with
  | none => simp
  | some p =>
      simp only [hw, if_true]
      cases hwait : c.wait_for_updates w 1 <;> simp

/-- Witness for the amended C4: a wire that accepts writes but returns no
data. -/
theorem passive_refresh_ok_when_write_succeeds_witness :
    deadWire.write 0 = true ∧
    (passive_refresh_state CloudIIIWireless.codec deadWire
      cloudIIIInitialState).1 = .ok () :=
  ⟨rfl, passive_refresh_ok_when_write_succeeds CloudIIIWireless.codec deadWire
    cloudIIIInitialState rfl⟩

/-- C5: after `init_capabilities`, each capability flag stored in the device
state equals whether the corresponding set-packet encoder returns `Some` on
its innocuous placeholder argument (`false` for the boolean features, `0` for
side tone volume, `Duration::ZERO` for automatic shutdown, band `0` at
`0.0 dB` for the equalizer).  `init_capabilities` takes no `Wire` argument, so
computing the flags writes nothing to the transport.  For the four resolvable
models the probed flag vectors (mute, surround, side tone, auto-shutdown,
side-tone volume, voice prompt, silent mode, equalizer) are evaluated
explicitly. -/
theorem init_capabilities_matches_encoders (c : Codec) (s : DeviceState) :
    ((c.init_capabilities s).can_set_mute = (c.set_mute_packet false).isSome ∧
     (c.init_capabilities s).can_set_surround_sound =
       (c.set_surround_sound_packet false).isSome ∧
     (c.init_capabilities s).can_set_side_tone =
       (c.set_side_tone_packet false).isSome ∧
     (c.init_capabilities s).can_set_automatic_shutdown =
       (c.set_automatic_shut_down_packet 0).isSome ∧
     (c.init_capabilities s).can_set_side_tone_volume =
       (c.set_side_tone_volume_packet 0).isSome ∧
     (c.init_capabilities s).can_set_voice_prompt =
       (c.set_voice_prompt_packet false).isSome ∧
     (c.init_capabilities s).can_set_silent_mode =
       (c.set_silent_mode_packet false).isSome ∧
     (c.init_capabilities s).can_set_equalizer =
       (c.set_equalizer_band_packet 0 0).isSome) ∧
    ((CloudIIWireless.codec.can_set_mute, CloudIIWireless.codec.can_set_surround_sound,
      CloudIIWireless.codec.can_set_side_tone, CloudIIWireless.codec.can_set_automatic_shutdown,
      CloudIIWireless.codec.can_set_side_tone_volume, CloudIIWireless.codec.can_set_voice_prompt,
      CloudIIWireless.codec.can_set_silent_mode, CloudIIWireless.codec.can_set_equalizer) =
      (false, false, true, true, false, false, false, false) ∧
     (CloudIIWirelessDTS.codec.can_set_mute, CloudIIWirelessDTS.codec.can_set_surround_sound,
      CloudIIWirelessDTS.codec.can_set_side_tone, CloudIIWirelessDTS.codec.can_set_automatic_shutdown,
      CloudIIWirelessDTS.codec.can_set_side_tone_volume, CloudIIWirelessDTS.codec.can_set_voice_prompt,
      CloudIIWirelessDTS.codec.can_set_silent_mode, CloudIIWirelessDTS.codec.can_set_equalizer) =
      (true, false, true, true, true, false, false, false) ∧
     (CloudIIISWireless.codec.can_set_mute, CloudIIISWireless.codec.can_set_surround_sound,
      CloudIIISWireless.codec.can_set_side_tone, CloudIIISWireless.codec.can_set_automatic_shutdown,
      CloudIIISWireless.codec.can_set_side_tone_volume, CloudIIISWireless.codec.can_set_voice_prompt,
      CloudIIISWireless.codec.can_set_silent_mode, CloudIIISWireless.codec.can_set_equalizer) =
      (true, false, false, true, false, false, false, false) ∧
     (CloudIIIWireless.codec.can_set_mute, CloudIIIWireless.codec.can_set_surround_sound,
      CloudIIIWireless.codec.can_set_side_tone, CloudIIIWireless.codec.can_set_automatic_shutdown,
      CloudIIIWireless.codec.can_set_side_tone_volume, CloudIIIWireless.codec.can_set_voice_prompt,
      CloudIIIWireless.codec.can_set_silent_mode, CloudIIIWireless.codec.can_set_equalizer) =
      (true, false, true, true, true, false, true, false)) :=
  ⟨⟨rfl, rfl, rfl, rfl, rfl, rfl, rfl, rfl⟩, rfl, rfl, rfl, rfl⟩

/-- C6 counterexample: the claim says every resolvable codec's decoder is
total on every input slice, including slices shorter than the offsets it
inspects; but `CloudIIIWireless::get_event_from_device_response` reads
`response[0]` with no length guard (out of bounds on the empty slice), and
`CloudIIWireless`'s battery arm reads `response[7]` behind a `len < 7` guard
(out of bounds on the 7-byte battery response `[11, 0, 187, 2, 0, 0, 0]`). -/
theorem decode_oob_on_short_input_cx :
    CloudIIIWireless.get_event_from_device_response [] = .error () ∧
    CloudIIWireless.get_event_from_device_response [11, 0, 187, 2, 0, 0, 0] =
      .error () :=
  ⟨rfl, rfl⟩

/-- C6 (amended): for every codec variant selectable by the connection
resolver, `get_event_from_device_response` is total — it returns `Some`
events or `None` with no out-of-bounds access — on every input of length at
least 8; in particular on the zero-padded 256-byte buffers that
`wait_for_updates` always passes it. -/
theorem decoders_total_on_buffers (r : List Nat) (h : 8 ≤ r.length) :
    (∃ v, CloudIIWireless.get_event_from_device_response r = .ok v) ∧
    (∃ v, CloudIIWirelessDTS.get_event_from_device_response r = .ok v) ∧
    (∃ v, CloudIIISWireless.get_event_from_device_response r = .ok v) ∧
    (∃ v, CloudIIIWireless.get_event_from_device_response r = .ok v) :=
  ⟨cloudIIWireless_decode_total r h, cloudIIWirelessDTS_decode_total r h,
   cloudIIISWireless_decode_total r h, cloudIIIWireless_decode_total r h⟩

set_option maxRecDepth 8000 in
/-- Witness for the amended C6: the zeroed 256-byte read buffer. -/
theorem decoders_total_on_buffers_witness :
    8 ≤ (fill_buffer []).length ∧
    ((∃ v, CloudIIWireless.get_event_from_device_response (fill_buffer []) = .ok v) ∧
     (∃ v, CloudIIWirelessDTS.get_event_from_device_response (fill_buffer []) = .ok v) ∧
     (∃ v, CloudIIISWireless.get_event_from_device_response (fill_buffer []) = .ok v) ∧
     (∃ v, CloudIIIWireless.get_event_from_device_response (fill_buffer []) = .ok v)) :=
  ⟨by simp [fill_buffer], decoders_total_on_buffers (fill_buffer [])
    (by simp [fill_buffer])⟩

/-- The equalizer packet as the specification words it (for comparison with
the implementation): report ID `0x0c`, command bytes `0x02 0x03 0x00 0x00
0x5f`, byte 6 the band index, bytes 7–8 the big-endian signed 16-bit value of
the dB value times 100 clamped to `[-1200, 1200]`, zero-padded to 64 bytes. -/
def eq_packet_spec (band : Nat) (db : ℚ) : List Nat :=
  let v := ratTrunc (max (-1200) (min 1200 (db * 100)))
  let n := (v % 65536).toNat
  [12, 2, 3, 0, 0, 95, band] ++ [n / 256, n % 256] ++ List.replicate 55 0

/-- `ratTrunc` is the identity on integers. -/
theorem ratTrunc_intCast (z : ℤ) : ratTrunc (z : ℚ) = z := by
  unfold ratTrunc
  rw [Rat.num_intCast, Rat.den_intCast]
  exact Int.tdiv_one z

/-- C8: for `CloudIIISWireless`, `set_equalizer_bands_packets` on a non-empty
band list whose indices are all at most 9 returns exactly one 64-byte packet
per band in input order, each packet being `eq_packet_spec` of that band; it
returns `None` when the list is empty or any band index exceeds 9; and band 5
at `-6.0 dB` produces band byte 5 and big-endian value bytes `253, 168`, the
two's complement of `-600` centidecibels. -/
theorem set_equalizer_bands_packets_spec (bands : List (Nat × ℚ))
    (hne : bands ≠ []) (hle : ∀ p ∈ bands, p.1 ≤ 9) :
    (CloudIIISWireless.set_equalizer_bands_packets bands =
      some (bands.map fun p => eq_packet_spec p.1 p.2) ∧
     ∀ p ∈ bands, (eq_packet_spec p.1 p.2).length = 64) ∧
    CloudIIISWireless.set_equalizer_bands_packets [] = none ∧
    (∀ bs : List (Nat × ℚ), (∃ p ∈ bs, 9 < p.1) →
      CloudIIISWireless.set_equalizer_bands_packets bs = none) ∧
    eq_packet_spec 5 (-6) =
      [12, 2, 3, 0, 0, 95, 5, 253, 168] ++ List.replicate 55 0 := by
  refine ⟨⟨?_, ?_⟩, rfl, ?_, ?_⟩
  · unfold CloudIIISWireless.set_equalizer_bands_packets
    have hempty : bands.isEmpty = false := by
      cases bands with
      | nil => exact absurd rfl hne
      | cons a l => rfl
    have hany : bands.any (fun b => 9 < b.1) = false := by
      rw [List.any_eq_false]
      intro p hp
      simpa using Nat.not_lt.mpr (hle p hp)
    rw [hempty, hany]
    rfl
  · intro p hp
    rfl
  · rintro bs ⟨p, hp, h9⟩
    unfold CloudIIISWireless.set_equalizer_bands_packets
    have hany : bs.any (fun b => 9 < b.1) = true :=
      List.any_eq_true.mpr ⟨p, hp, by simpa using h9⟩
    rw [hany]
    simp
  · have h1 : ((-6 : ℚ) * 100) = -600 := by norm_num
    have h2 : (max (-1200 : ℚ) (min 1200 (-600))) = -600 := by
      rw [min_eq_right (by norm_num), max_eq_right (by norm_num)]
    have h3 : ratTrunc (-600 : ℚ) = -600 := by
      have hc : ((-600 : ℤ) : ℚ) = (-600 : ℚ) := by norm_num
      rw [← hc, ratTrunc_intCast]
    unfold eq_packet_spec
    rw [h1, h2, h3]
    decide

/-- Witness for C8: the single band `5` at `-6.0 dB`. -/
theorem set_equalizer_bands_packets_spec_witness :
    (([((5 : Nat), (-6 : ℚ))] ≠ []) ∧
      (∀ p ∈ [((5 : Nat), (-6 : ℚ))], p.1 ≤ 9)) ∧
    ((CloudIIISWireless.set_equalizer_bands_packets [((5 : Nat), (-6 : ℚ))] =
      some ([((5 : Nat), (-6 : ℚ))].map fun p => eq_packet_spec p.1 p.2) ∧
     ∀ p ∈ [((5 : Nat), (-6 : ℚ))], (eq_packet_spec p.1 p.2).length = 64) ∧
    CloudIIISWireless.set_equalizer_bands_packets [] = none ∧
    (∀ bs : List (Nat × ℚ), (∃ p ∈ bs, 9 < p.1) →
      CloudIIISWireless.set_equalizer_bands_packets bs = none) ∧
    eq_packet_spec 5 (-6) =
      [12, 2, 3, 0, 0, 95, 5, 253, 168] ++ List.replicate 55 0) :=
  ⟨⟨by simp, by simp⟩,
   set_equalizer_bands_packets_spec [((5 : Nat), (-6 : ℚ))] (by simp) (by simp)⟩

set_option maxRecDepth 4000 in
/-- C9: in the `CloudIICoreWireless` decoder, a side-tone-volume response
payload byte `b` is mapped before being emitted as a `SideToneVolume` event:
bytes at least 251 pass through the `(b as i32 | -256) as u8` branch, whose
result is `b` itself — the two's complement byte of the negative side-tone
offset `b - 256 ∈ [-5, -1]`; bytes 0 through 5 pass through unchanged; every
other byte falls back to 0.  The decoder arm is evaluated on the 256-byte
buffer holding a `[102, 136, b, ...]` response. -/
theorem side_tone_volume_sentinel_mapping (b : Fin 256) :
    (251 ≤ b.val →
      CloudIICoreWireless.side_tone_volume_map b.val = b.val ∧
      128 ≤ CloudIICoreWireless.side_tone_volume_map b.val ∧
      (b.val : Int) - 256 < 0 ∧ -5 ≤ (b.val : Int) - 256) ∧
    (b.val ≤ 5 → CloudIICoreWireless.side_tone_volume_map b.val = b.val) ∧
    (5 < b.val → b.val < 251 →
      CloudIICoreWireless.side_tone_volume_map b.val = 0) ∧
    CloudIICoreWireless.get_event_from_device_response
        (fill_buffer [102, 136, b.val, 0, 0]) =
      .ok (some [DeviceEvent.SideToneVolume
        (CloudIICoreWireless.side_tone_volume_map b.val)]) := by
  refine ⟨?_, ?_, ?_, ?_⟩
  · revert b
    decide
  · revert b
    decide
  · revert b
    decide
  · rfl

set_option maxRecDepth 4000 in
/-- Witness for C9 at the sentinel byte 252, the pass-through byte 3 and the
fallback byte 100. -/
theorem side_tone_volume_sentinel_mapping_witness :
    CloudIICoreWireless.side_tone_volume_map 252 = 252 ∧
    CloudIICoreWireless.side_tone_volume_map 3 = 3 ∧
    CloudIICoreWireless.side_tone_volume_map 100 = 0 ∧
    CloudIICoreWireless.get_event_from_device_response
        (fill_buffer [102, 136, 252, 0, 0]) =
      .ok (some [DeviceEvent.SideToneVolume 252]) := by
  refine ⟨?_, ?_, ?_, ?_⟩
  · exact ((side_tone_volume_sentinel_mapping ⟨252, by decide⟩).1 (by decide)).1
  · exact (side_tone_volume_sentinel_mapping ⟨3, by decide⟩).2.1 (by decide)
  · exact (side_tone_volume_sentinel_mapping ⟨100, by decide⟩).2.2.1 (by decide)
      (by decide)
  · exact (side_tone_volume_sentinel_mapping ⟨252, by decide⟩).2.2.2

/-- C10: for every codec variant constructible by the connection resolver,
`can_set_equalizer` returns `false` — and `init_capabilities` therefore always
stores a `false` equalizer flag — because the probe calls the trait's
single-band `set_equalizer_band_packet`, whose default body returns `None`
and which no variant overrides; yet `CloudIIISWireless` does provide the
separate multi-band `set_equalizer_bands_packets` encoder, which succeeds on
band 5 at `-6.0 dB`. -/
theorem can_set_equalizer_always_false (s : DeviceState) :
    CloudIIWireless.codec.can_set_equalizer = false ∧
    CloudIIWirelessDTS.codec.can_set_equalizer = false ∧
    CloudIIISWireless.codec.can_set_equalizer = false ∧
    CloudIIIWireless.codec.can_set_equalizer = false ∧
    (CloudIIWireless.codec.init_capabilities s).can_set_equalizer = false ∧
    (CloudIIWirelessDTS.codec.init_capabilities s).can_set_equalizer = false ∧
    (CloudIIISWireless.codec.init_capabilities s).can_set_equalizer = false ∧
    (CloudIIIWireless.codec.init_capabilities s).can_set_equalizer = false ∧
    (∀ band db, CloudIIISWireless.codec.set_equalizer_band_packet band db =
      none) ∧
    (CloudIIISWireless.set_equalizer_bands_packets
      [((5 : Nat), (-6 : ℚ))]).isSome = true :=
  ⟨rfl, rfl, rfl, rfl, rfl, rfl, rfl, rfl, fun _ _ => rfl, rfl⟩
